import Mathlib

/-!
Verification development for the voice-interaction pipeline of
`llm-screen-navigator-with-voice-and-vision`.

The development shallowly embeds the two files that implement the core
pipeline:

* `src/backend/server.py` — class `AudioServer` (conversation pipeline,
  per-connection handling, bounded request context);
* `src/backend/client.py` — class `AudioClient` (amplitude-based VAD
  segmenter, WAV container construction, playback sink).

External collaborators (OpenAI transcription / chat / TTS, the network and
the sound card) are modelled as oracle functions supplied as parameters;
everything the repository's own code computes is translated directly from
the Python source.  Machine integers are modelled as `Int`/`Nat` with
explicit wrap-around where the source can overflow (notably `np.abs` on
`int16` data), and wall-clock timestamps are modelled as exact rationals.
-/

/-! ## Conversation data model (server.py)

`AudioServer.get_ai_response` stores history entries of shape
`{"role": ..., "content": ...}`; the roles that occur are `system`,
`user` and `assistant`. -/

inductive Role where
  | system
  | user
  | assistant
deriving DecidableEq

structure Turn where
  role : Role
  content : String
deriving DecidableEq

/-- The fixed system instruction from `AudioServer.__init__`
(server.py lines 22-30). -/
def system_prompt : String :=
  "You are a highly intelligent and helpful voice assistant. \n        Your responses should be:\n        - Natural and conversational\n        - Accurate and informative\n        - Concise but complete\n        - Contextually aware of previous conversation\n        \n        If you don't understand or need clarification, ask for it politely.\n        If a question is cut off or unclear, ask for clarification."

/-- Python `hist[-4:]` (server.py line 58): the last four entries of the
stored history, or the whole history when it is shorter. -/
def last_four (l : List Turn) : List Turn := l.drop (l.length - 4)

/-- The request context built in `AudioServer.get_ai_response`
(server.py lines 55-59): the system instruction followed by the last four
stored entries. -/
def build_messages (sys : String) (hist : List Turn) : List Turn :=
  { role := Role.system, content := sys } :: last_four hist

/-- `AudioServer.get_ai_response` (server.py lines 48-78).  The external
chat-completion call is the oracle `gen`; `gen ... = none` models the call
raising (caught by the `except` clause, which returns `None`).  The user
turn is appended to the stored history before the call; on success the
assistant turn is appended as well. -/
def get_ai_response (gen : List Turn → Option String) (sys : String)
    (hist : List Turn) (text : String) : List Turn × Option String :=
  let h1 := hist ++ [{ role := Role.user, content := text }]
  match gen (build_messages sys h1) with
  | none => (h1, none)
  | some r => (h1 ++ [{ role := Role.assistant, content := r }], some r)

/-- Python `str.strip()`: remove leading and trailing whitespace.
(`String.trim` is extensionally the same but is defined through
well-founded auxiliaries that the kernel cannot evaluate, so the model
uses a structural definition.) -/
def pyStrip (s : String) : String :=
  String.mk (((s.data.dropWhile Char.isWhitespace).reverse.dropWhile
      Char.isWhitespace).reverse)

/-- The external capabilities consumed by one message cycle of
`AudioServer.process_audio`: chat completion and text-to-speech.
A `none` result models the corresponding OpenAI call raising (each wrapper
catches the exception and returns `None`). -/
structure Capabilities where
  genReply : List Turn → Option String
  tts : String → Option (List Nat)

/-- One iteration of the `async for message in websocket` loop of
`AudioServer.process_audio` (server.py lines 98-125), starting from the
transcription result: `transcription` is the outcome of
`transcribe_audio` (`none` models a transcription error).  Returns the
stored history after the cycle and the audio reply sent back, if any.
Mirrors the guards `if transcription and transcription.strip():`,
`if ai_response:` and `if audio_response:`. -/
def process_audio_message (cap : Capabilities) (sys : String)
    (transcription : Option String) (hist : List Turn) :
    List Turn × Option (List Nat) :=
  match transcription with
  | none => (hist, none)
  | some t =>
    if t ≠ "" ∧ pyStrip t ≠ "" then
      match get_ai_response cap.genReply sys hist t with
      | (h2, none) => (h2, none)
      | (h2, some r) =>
        if r ≠ "" then
          match cap.tts r with
          | none => (h2, none)
          | some audio => (h2, some audio)
        else (h2, none)
    else (hist, none)

/-- The whole `async for` loop of `AudioServer.process_audio` for one
accepted connection, given the transcription outcome of each inbound
message.  Returns the stored history when the connection closes and the
list of audio replies sent. -/
def process_audio_connection (cap : Capabilities) (sys : String)
    (msgs : List (Option String)) (hist : List Turn) :
    List Turn × List (List Nat) :=
  match msgs with
  | [] => (hist, [])
  | m :: ms =>
    let p := process_audio_message cap sys m hist
    let q := process_audio_connection cap sys (ms) p.1
    (q.1, p.2.toList ++ q.2)

/-- The server process: `websockets.serve(self.process_audio, ...)`
(server.py line 134) registers the bound method of the single
`AudioServer` instance as the handler for every accepted connection, so
`self.conversation_history` is threaded from one connection to the next.
Returns the instance's stored history after the given connections have
been served sequentially. -/
def run_server (cap : Capabilities) (sys : String)
    (conns : List (List (Option String))) (hist : List Turn) : List Turn :=
  match conns with
  | [] => hist
  | c :: cs => run_server cap sys cs (process_audio_connection cap sys c hist).1

/-- The stored history in effect at the moment each successive connection
is accepted (the first connection starts from the `__init__` value of
`conversation_history`, i.e. the `hist` argument). -/
def startHistories (cap : Capabilities) (sys : String)
    (conns : List (List (Option String))) (hist : List Turn) :
    List (List Turn) :=
  match conns with
  | [] => []
  | c :: cs =>
    hist :: startHistories cap sys cs (process_audio_connection cap sys c hist).1

/-- A concrete instantiation of the external capabilities, used to
evaluate the model on concrete runs: the chat model always answers
`"hi"` and text-to-speech always succeeds. -/
def demoCap : Capabilities :=
  { genReply := fun _ => some "hi", tts := fun _ => some [0] }

/-! ## Claims C1, C2, C6, C7 — conversation pipeline and sessions -/

/-- C1 (counterexample): the claim "every newly accepted connection begins
with an empty conversation history" is false.  A single `AudioServer`
instance handles every connection, and `conversation_history` is an
instance attribute that is never cleared, so after a first connection
exchanges one utterance, a second accepted connection begins with the two
turns left by the first connection, not with `[]`. -/
theorem c1_counterexample :
    startHistories demoCap system_prompt [[some "hello"], [some "again"]] [] =
      [[], [⟨Role.user, "hello"⟩, ⟨Role.assistant, "hi"⟩]] ∧
    ([⟨Role.user, "hello"⟩, ⟨Role.assistant, "hi"⟩] : List Turn) ≠ [] := by
  constructor
  · decide
  · decide

/-- C1 (amended): all connections served by the one `AudioServer` instance
share its single `conversation_history`, which is not discarded when a
connection closes: a newly accepted connection begins with exactly the
history accumulated by all previous connections of the process (empty only
for the first connection). -/
theorem c1_amended_history_persists (cap : Capabilities) (sys : String)
    (cs : List (List (Option String))) (c : List (Option String))
    (h : List Turn) :
    startHistories cap sys (cs ++ [c]) h =
      startHistories cap sys cs h ++ [run_server cap sys cs h] := by
  induction cs generalizing h with
  | nil => simp [startHistories, run_server]
  | cons c' cs ih => simp [startHistories, run_server, ih]

/-- C2 (counterexample): the claim that the stored conversation history
contains at most N+1 entries (N = 4 in the source: `[-4:]`) is false.
After three completed exchanges on one connection the stored
`conversation_history` holds 6 entries, exceeding the claimed bound of 5;
the stored history is never truncated. -/
theorem c2_counterexample :
    (process_audio_connection demoCap system_prompt
        [some "a", some "b", some "c"] []).1.length = 6 ∧
    5 < (process_audio_connection demoCap system_prompt
        [some "a", some "b", some "c"] []).1.length := by
  constructor
  · decide
  · decide

/-- C2 (amended): what is bounded is the request context built for reply
generation — at most 5 entries (the fixed system instruction plus the
last N = 4 stored entries) — while the stored history itself is never
truncated: it grows by exactly one entry when generation fails and by
exactly two entries when generation succeeds. -/
theorem c2_amended_context_bounded (gen : List Turn → Option String)
    (sys : String) (hist : List Turn) (t : String) :
    (build_messages sys (hist ++ [⟨Role.user, t⟩])).length ≤ 5 ∧
    ((get_ai_response gen sys hist t).1.length = hist.length + 1 ∨
      (get_ai_response gen sys hist t).1.length = hist.length + 2) := by
  constructor
  · simp only [build_messages, last_four, List.length_cons, List.length_drop,
      List.length_append, List.length_singleton]
    omega
  · rcases hg : gen (build_messages sys (hist ++ [⟨Role.user, t⟩])) with _ | r <;>
      simp [get_ai_response, hg]

/-- C6: if the transcription of an inbound utterance is empty or
whitespace-only (`transcription.strip()` is falsy), the cycle produces no
reply audio and leaves the stored conversation history unchanged. -/
theorem c6_blank_transcription_no_effect (cap : Capabilities) (sys : String)
    (hist : List Turn) (t : String) (h : pyStrip t = "") :
    process_audio_message cap sys (some t) hist = (hist, none) := by
  simp [process_audio_message, h]

/-- C6 witness at a whitespace-only transcription. -/
theorem c6_witness :
    pyStrip "   " = "" ∧
    process_audio_message demoCap system_prompt (some "   ") [] = ([], none) :=
  ⟨by decide,
    c6_blank_transcription_no_effect demoCap system_prompt [] "   " (by decide)⟩

/-- The request context always ends with the most recently appended turn:
the entry handed to the generator last is the new user turn. -/
lemma build_messages_getLast (sys : String) (h : List Turn) (u : Turn) :
    (build_messages sys (h ++ [u])).getLast? = some u := by
  unfold build_messages last_four
  rw [List.drop_append_of_le_length
    (by simp only [List.length_append, List.length_singleton]; omega)]
  rw [← List.cons_append]
  exact List.getLast?_concat _

/-- C7: for a non-blank transcription, the user turn is appended to the
stored history before reply generation is invoked (it is the last entry of
the request context handed to the generator), it remains in the history
when generation fails, and when generation returns a reply the assistant
turn also remains in the history regardless of whether speech synthesis or
delivery subsequently fails. -/
theorem c7_user_turn_persists (cap : Capabilities) (sys : String)
    (hist : List Turn) (t : String) (h : pyStrip t ≠ "") :
    (build_messages sys (hist ++ [⟨Role.user, t⟩])).getLast? =
      some ⟨Role.user, t⟩ ∧
    (cap.genReply (build_messages sys (hist ++ [⟨Role.user, t⟩])) = none →
      (process_audio_message cap sys (some t) hist).1 =
        hist ++ [⟨Role.user, t⟩]) ∧
    (∀ r, cap.genReply (build_messages sys (hist ++ [⟨Role.user, t⟩])) = some r →
      (process_audio_message cap sys (some t) hist).1 =
        hist ++ [⟨Role.user, t⟩, ⟨Role.assistant, r⟩]) := by
  have ht : t ≠ "" := by
    intro he
    exact h (by rw [he]; rfl)
  refine ⟨?_, ?_, ?_⟩
  · exact build_messages_getLast sys hist ⟨Role.user, t⟩
  · intro hg
    simp [process_audio_message, ht, h, get_ai_response, hg]
  · intro r hg
    by_cases hr : r = ""
    · simp [process_audio_message, ht, h, get_ai_response, hg, hr]
    · rcases htts : cap.tts r with _ | audio <;>
        simp [process_audio_message, ht, h, get_ai_response, hg, hr, htts]

/-- C7 witness: a concrete non-blank transcription with a generator that
fails, showing the user turn already persisted. -/
theorem c7_witness :
    pyStrip "hi" ≠ "" ∧
    ((build_messages system_prompt ([] ++ [⟨Role.user, "hi"⟩])).getLast? =
      some ⟨Role.user, "hi"⟩ ∧
    (demoCap.genReply (build_messages system_prompt
        ([] ++ [⟨Role.user, "hi"⟩])) = none →
      (process_audio_message demoCap system_prompt (some "hi") []).1 =
        [] ++ [⟨Role.user, "hi"⟩]) ∧
    (∀ r, demoCap.genReply (build_messages system_prompt
        ([] ++ [⟨Role.user, "hi"⟩])) = some r →
      (process_audio_message demoCap system_prompt (some "hi") []).1 =
        [] ++ [⟨Role.user, "hi"⟩, ⟨Role.assistant, r⟩])) :=
  ⟨by decide, c7_user_turn_persists demoCap system_prompt [] "hi" (by decide)⟩

/-! ## VAD segmenter (client.py)

`AudioClient.is_silent` computes `np.max(np.abs(audio_data)) < 1500` on an
`int16` array.  `np.abs` on `int16` wraps: `abs(-32768) = -32768`.  The
silence-segmentation state machine lives in `AudioClient.process_audio`
(client.py lines 45-93): per-frame state is `self.frames`,
`recording_started` and `self.last_sound_time`, with
`SILENCE_DURATION = 0.8` seconds. -/

/-- `np.abs` on a single `int16` sample: the true absolute value, except
that `-32768` wraps to `-32768`. -/
def absInt16 (x : Int) : Int := if x = -32768 then -32768 else (x.natAbs : Int)

/-- `AudioClient.is_silent` (client.py lines 26-33): a frame is silent iff
the `int16` maximum of the wrapped absolute values is below the threshold
`SILENCE_THRESHOLD = 1500`.  On an empty frame `np.max` raises and the
`except` clause returns `True`. -/
def is_silent (data : List Int) : Bool :=
  match data with
  | [] => true
  | x :: xs => decide ((xs.foldl (fun m y => max m (absInt16 y)) (absInt16 x)) < 1500)

/-- The per-frame state of the segmentation loop in
`AudioClient.process_audio`: `self.frames`, the local `recording_started`
and `self.last_sound_time`. -/
structure VadState where
  frames : List (List Int)
  recording_started : Bool
  last_sound_time : ℚ
deriving DecidableEq

/-- One iteration of the `while` loop of `AudioClient.process_audio`
(client.py lines 60-85) on a captured frame `data` read at wall-clock time
`now`: a non-silent frame is appended to the buffer and refreshes
`last_sound_time`; a silent frame while the buffer is non-empty and
recording has started emits the buffer as an utterance once the silence
gap exceeds `SILENCE_DURATION = 0.8` s, clearing the buffer; otherwise the
frame is dropped. -/
def vad_step (st : VadState) (data : List Int) (now : ℚ) :
    VadState × Option (List (List Int)) :=
  if is_silent data = false then
    ({ st with frames := st.frames ++ [data], recording_started := true,
               last_sound_time := now }, none)
  else if !st.frames.isEmpty && st.recording_started then
    if now - st.last_sound_time > 4/5 then
      ({ st with frames := [], recording_started := false }, some st.frames)
    else (st, none)
  else (st, none)

/-- The segmentation loop run over a sequence of (frame, capture time)
pairs, collecting the emitted utterances in order. -/
def vad_run (st : VadState) (inputs : List (List Int × ℚ)) :
    VadState × List (List (List Int)) :=
  match inputs with
  | [] => (st, [])
  | (d, t) :: rest =>
    let p := vad_step st d t
    let q := vad_run p.1 rest
    (q.1, p.2.toList ++ q.2)

/-! ## Claim C3 — the silence classification at `-32768` -/

/-- C3 (code bug): the claim says a frame containing a sample of magnitude
1500 or more — "including the minimum value -32768" — is classified
non-silent.  The code computes `np.abs` on `int16` data, which wraps
`-32768` to `-32768`, so a frame whose only loud sample is `-32768` has a
computed peak of `-32768 < 1500` and is classified **silent**, although
its true magnitude is `32768 ≥ 1500`. -/
theorem c3_abs_overflow_frame_silent :
    is_silent [-32768] = true ∧ ((-32768 : Int).natAbs = 32768) := by
  constructor
  · decide
  · decide

/-! ## Claim C4 — all-silent frame sequences -/

lemma absInt16_lt_of_natAbs_lt {x : Int} (h : x.natAbs < 1500) :
    absInt16 x < 1500 := by
  unfold absInt16
  split
  · norm_num
  · omega

lemma foldl_max_lt (xs : List Int) (init : Int) (hi : init < 1500)
    (hxs : ∀ y ∈ xs, absInt16 y < 1500) :
    xs.foldl (fun m y => max m (absInt16 y)) init < 1500 := by
  induction xs generalizing init with
  | nil => exact hi
  | cons y ys ih =>
    simp only [List.foldl_cons]
    exact ih _ (max_lt hi (hxs y (by simp))) (fun z hz => hxs z (by simp [hz]))

/-- A frame whose true peak magnitude is below the threshold is classified
silent (no sample can be `-32768`, so the `int16` wrap cannot fire). -/
lemma is_silent_of_small {d : List Int} (h : ∀ x ∈ d, x.natAbs < 1500) :
    is_silent d = true := by
  cases d with
  | nil => rfl
  | cons x xs =>
    simp only [is_silent, decide_eq_true_eq]
    exact foldl_max_lt xs _ (absInt16_lt_of_natAbs_lt (h x (by simp)))
      (fun y hy => absInt16_lt_of_natAbs_lt (h y (by simp [hy])))

lemma vad_step_silent_idle (t0 : ℚ) (d : List Int) (now : ℚ)
    (h : is_silent d = true) :
    vad_step ⟨[], false, t0⟩ d now = (⟨[], false, t0⟩, none) := by
  simp [vad_step, h]

lemma vad_run_all_silent (inputs : List (List Int × ℚ)) (t0 : ℚ)
    (h : ∀ p ∈ inputs, is_silent p.1 = true) :
    vad_run ⟨[], false, t0⟩ inputs = (⟨[], false, t0⟩, []) := by
  induction inputs with
  | nil => rfl
  | cons p rest ih =>
    obtain ⟨d, tm⟩ := p
    simp only [vad_run]
    rw [vad_step_silent_idle t0 d tm (h (d, tm) (by simp))]
    rw [ih (fun q hq => h q (List.mem_cons_of_mem _ hq))]
    rfl

/-- C4: on any frame sequence in which every frame's true peak magnitude
is strictly below the threshold 1500, the segmenter — run from its initial
state — never emits an utterance, its buffer stays empty and it never
enters the recording state (the state after every prefix of the run is the
initial state and the emission list is empty). -/
theorem c4_all_silent_no_emission (inputs : List (List Int × ℚ)) (t0 : ℚ)
    (h : ∀ p ∈ inputs, ∀ x ∈ p.1, x.natAbs < 1500) :
    ∀ n, vad_run ⟨[], false, t0⟩ (inputs.take n) = (⟨[], false, t0⟩, []) := by
  intro n
  apply vad_run_all_silent
  intro p hp
  exact is_silent_of_small (h p (List.take_subset n inputs hp))

/-- C4 witness on a concrete all-quiet frame sequence. -/
theorem c4_witness :
    (∀ p ∈ ([([0, 100], 0), ([5], 1)] : List (List Int × ℚ)),
      ∀ x ∈ p.1, x.natAbs < 1500) ∧
    (∀ n, vad_run ⟨[], false, 0⟩
        (([([0, 100], 0), ([5], 1)] : List (List Int × ℚ)).take n) =
      (⟨[], false, 0⟩, [])) :=
  ⟨by decide, c4_all_silent_no_emission _ 0 (by decide)⟩

/-! ## Claim C5 — shape of emitted utterances -/

/-- When a step emits an utterance, the utterance is exactly the current
buffer, the buffer was non-empty, and the post-state buffer is cleared and
recording is off. -/
lemma vad_step_emit {st : VadState} {d : List Int} {now : ℚ}
    {st' : VadState} {u : List (List Int)}
    (h : vad_step st d now = (st', some u)) :
    u = st.frames ∧ st.frames ≠ [] ∧ st'.frames = [] ∧
      st'.recording_started = false := by
  unfold vad_step at h
  split at h
  · simp at h
  · split at h
    · rename_i hcond
      split at h
      · rw [Prod.mk.injEq] at h
        obtain ⟨hst, hu⟩ := h
        refine ⟨(Option.some.inj hu).symm, ?_, ?_, ?_⟩
        · intro hnil
          rw [Bool.and_eq_true, Bool.not_eq_true'] at hcond
          rw [hnil] at hcond
          simp at hcond
        · rw [← hst]
        · rw [← hst]
      · simp at h
    · simp at h

/-- A non-emitting step either appends the (non-silent) frame to the
buffer or leaves the buffer unchanged; an emitting step clears it.  In
every case the buffer after the step is a sublist of `C ++ [d]` whenever
the buffer before it is a sublist of `C`, and all buffered frames remain
non-silent. -/
lemma vad_step_buffer {st : VadState} (d : List Int) (now : ℚ) {C : List (List Int)}
    (hC : List.Sublist st.frames C)
    (hns : ∀ f ∈ st.frames, is_silent f = false) :
    List.Sublist (vad_step st d now).1.frames (C ++ [d]) ∧
      ∀ f ∈ (vad_step st d now).1.frames, is_silent f = false := by
  unfold vad_step
  split
  · rename_i hd
    constructor
    · exact List.Sublist.append hC (List.Sublist.refl [d])
    · intro f hf
      rcases List.mem_append.1 hf with h1 | h1
      · exact hns f h1
      · rw [List.mem_singleton.1 h1]
        exact hd
  · split
    · split
      · exact ⟨List.nil_sublist _, by intro f hf; simp at hf⟩
      · exact ⟨hC.trans (List.sublist_append_left C [d]), hns⟩
    · exact ⟨hC.trans (List.sublist_append_left C [d]), hns⟩

/-- Run-level invariant: every emitted utterance is non-empty, is a
subsequence of the frames captured so far (`C` accounts for frames
captured before the run began), and consists of non-silent frames only. -/
lemma vad_run_emissions (inputs : List (List Int × ℚ)) :
    ∀ st C, List.Sublist st.frames C →
    (∀ f ∈ st.frames, is_silent f = false) →
    ∀ u ∈ (vad_run st inputs).2,
      u ≠ [] ∧ List.Sublist u (C ++ inputs.map Prod.fst) ∧
        ∀ f ∈ u, is_silent f = false := by
  induction inputs with
  | nil =>
    intro st C _ _ u hu
    simp [vad_run] at hu
  | cons p rest ih =>
    intro st C hC hns u hu
    obtain ⟨d, tm⟩ := p
    simp only [vad_run] at hu
    rcases List.mem_append.1 hu with hu1 | hu2
    · -- emitted at this step
      rcases hev : (vad_step st d tm).2 with _ | u'
      · rw [hev] at hu1; simp at hu1
      · rw [hev] at hu1
        rw [Option.toList_some, List.mem_singleton] at hu1
        subst hu1
        have hemit := vad_step_emit
          (show vad_step st d tm = ((vad_step st d tm).1, some u) from by
            rw [← hev])
        obtain ⟨hu_eq, hne, _, _⟩ := hemit
        subst hu_eq
        refine ⟨hne, ?_, hns⟩
        exact hC.trans ((List.sublist_append_left C _).trans
          (List.Sublist.refl _))
    · -- emitted later in the run
      have hstep := @vad_step_buffer st d tm C hC hns
      have := ih (vad_step st d tm).1 (C ++ [d]) hstep.1 hstep.2 u hu2
      refine ⟨this.1, ?_, this.2.2⟩
      have hre : (C ++ [d]) ++ rest.map Prod.fst =
          C ++ ((d, tm) :: rest).map Prod.fst := by
        simp
      rw [← hre]
      exact this.2.1

/-- C5 (counterexample): the claim that an emitted utterance omits no
captured frame lying between its first and last frame is false.  With
frames `[2000]` (speech), `[0]` (silence inside the 0.8 s grace period),
`[1600]` (speech), `[0]` (silence after the gap elapses), the segmenter
emits the utterance `[[2000], [1600]]`: the captured frame `[0]` lies
between the utterance's first and last frames in capture order but is not
part of it. -/
theorem c5_counterexample :
    vad_run ⟨[], false, 0⟩ [([2000], 0), ([0], 0), ([1600], 0), ([0], 1)] =
      (⟨[], false, 0⟩, [[[2000], [1600]]]) ∧
    ([0] : List Int) ∉ [([2000] : List Int), [1600]] ∧
    ([([2000], 0), ([0], 0), ([1600], 0), ([0], 1)] :
        List (List Int × ℚ)).map Prod.fst = [[2000], [0], [1600], [0]] := by
  refine ⟨?_, by decide, by decide⟩
  simp only [vad_run, vad_step]
  norm_num [is_silent, absInt16]

/-- C5 (amended): every utterance the segmenter emits is non-empty and
consists of non-silent captured frames in capture order — a subsequence of
the captured frames; silent frames falling inside the grace period between
two speech frames are omitted, so the utterance need not be contiguous in
capture order — and at the emitting step the utterance is exactly the
buffer, which is cleared immediately. -/
theorem c5_amended_utterances (inputs : List (List Int × ℚ)) (t0 : ℚ) :
    (∀ u ∈ (vad_run ⟨[], false, t0⟩ inputs).2,
        u ≠ [] ∧ List.Sublist u (inputs.map Prod.fst) ∧
          ∀ f ∈ u, is_silent f = false) ∧
    (∀ st d now st' u, vad_step st d now = (st', some u) →
        u = st.frames ∧ st'.frames = [] ∧ st'.recording_started = false) := by
  constructor
  · intro u hu
    have := vad_run_emissions inputs ⟨[], false, t0⟩ [] (List.nil_sublist [])
      (by intro f hf; simp at hf) u hu
    refine ⟨this.1, ?_, this.2.2⟩
    have h0 : ([] : List (List Int)) ++ inputs.map Prod.fst =
        inputs.map Prod.fst := by simp
    rw [← h0]
    exact this.2.1
  · intro st d now st' u h
    obtain ⟨h1, _, h3, h4⟩ := vad_step_emit h
    exact ⟨h1, h3, h4⟩

/-! ## Audio Framer (client.py `create_wav_buffer`, §4.2 of the design)

`AudioClient.create_wav_buffer` (client.py lines 35-43) writes a WAV
container through Python's `wave` module: the 44-byte canonical RIFF/WAVE
header (chunk size `36 + len`, `fmt ` chunk of size 16, PCM format tag 1,
channel count, sample rate, byte rate, block align, bits per sample, and a
`data` chunk sized to the payload) followed by the raw sample bytes.
Bytes are modelled as `Nat` values below 256; multi-byte fields are
little-endian and wrap at their field width exactly as the `wave` module's
`struct` packing does. -/

def fromLE2 (a b : Nat) : Nat := a + 256 * b

def fromLE4 (a b c d : Nat) : Nat := a + 256 * (b + 256 * (c + 256 * d))

def toLE2 (n : Nat) : List Nat := [n % 256, n / 256 % 256]

def toLE4 (n : Nat) : List Nat :=
  [n % 256, n / 256 % 256, n / 256 / 256 % 256, n / 256 / 256 / 256 % 256]

/-- The 44-byte canonical WAV header for a payload of `len` bytes, sample
rate `sr`, channel count `ch` and sample width `bd` bytes, exactly as
Python's `wave` module lays it out (`b'RIFF'`, chunk size, `b'WAVE'`,
`b'fmt '`, 16, format 1, channels, rate, byte rate `sr*ch*bd`, block align
`ch*bd`, bits `bd*8`, `b'data'`, payload size). -/
def wavHeader (len sr ch bd : Nat) : List Nat :=
  [82, 73, 70, 70] ++ toLE4 (36 + len) ++ [87, 65, 86, 69] ++
  [102, 109, 116, 32] ++ toLE4 16 ++ toLE2 1 ++ toLE2 ch ++ toLE4 sr ++
  toLE4 (sr * ch * bd) ++ toLE2 (ch * bd) ++ toLE2 (bd * 8) ++
  [100, 97, 116, 97] ++ toLE4 len

/-- The Audio Framer's `encode`: header plus raw sample bytes, the wire
form produced by `AudioClient.create_wav_buffer` generalised to the
parameters of §4.2 (`create_wav_buffer` instantiates it at rate 16000,
1 channel, 2-byte samples). -/
def encodeWav (samples : List Nat) (sr ch bd : Nat) : List Nat :=
  wavHeader samples.length sr ch bd ++ samples

/-- `AudioClient.create_wav_buffer` (client.py lines 35-43):
`b''.join(frames)` wrapped in a WAV container with `CHANNELS = 1`,
`RATE = 16000` and 2-byte (`paInt16`) samples. -/
def create_wav_buffer (frames : List (List Nat)) : List Nat :=
  encodeWav frames.flatten 16000 1 2

/-- The framer's decode error required by §4.2 of the design. -/
inductive FormatError where
  | malformed
deriving DecidableEq

/-- Modelled from the spec: the repository delegates container decoding to
the external `soundfile` library (`sf.read` in `AudioClient.play_audio`),
so no decode implementation exists in the source.  Per §4.2, `decode` must
"reject malformed headers with a `FormatError` rather than attempting
best-effort recovery": this model parses the channel count, sample rate
and sample width out of the 44-byte header and accepts the message only if
the header is byte-for-byte the canonical container header for those
fields and the actual payload length, returning the payload and the parsed
fields; any other byte sequence is rejected with `FormatError`. -/
def decodeWav (b : List Nat) : Except FormatError (List Nat × Nat × Nat) :=
  match b with
  | b0 :: b1 :: b2 :: b3 :: b4 :: b5 :: b6 :: b7 :: b8 :: b9 :: b10 :: b11 ::
    b12 :: b13 :: b14 :: b15 :: b16 :: b17 :: b18 :: b19 :: b20 :: b21 ::
    b22 :: b23 :: b24 :: b25 :: b26 :: b27 :: b28 :: b29 :: b30 :: b31 ::
    b32 :: b33 :: b34 :: b35 :: b36 :: b37 :: b38 :: b39 :: b40 :: b41 ::
    b42 :: b43 :: rest =>
    if b0 :: b1 :: b2 :: b3 :: b4 :: b5 :: b6 :: b7 :: b8 :: b9 :: b10 ::
        b11 :: b12 :: b13 :: b14 :: b15 :: b16 :: b17 :: b18 :: b19 :: b20 ::
        b21 :: b22 :: b23 :: b24 :: b25 :: b26 :: b27 :: b28 :: b29 :: b30 ::
        b31 :: b32 :: b33 :: b34 :: b35 :: b36 :: b37 :: b38 :: b39 :: b40 ::
        b41 :: b42 :: b43 :: ([] : List Nat) =
        wavHeader rest.length (fromLE4 b24 b25 b26 b27) (fromLE2 b22 b23)
          (fromLE2 b34 b35 / 8) then
      Except.ok (rest, fromLE4 b24 b25 b26 b27, fromLE2 b22 b23)
    else
      Except.error FormatError.malformed
  | _ => Except.error FormatError.malformed

/-! ## Claim C8 — container round-trip -/

/-- C8: for every valid PCM buffer (field widths as in the WAV header:
rate below 2^32, channel count below 2^16, sample width below 2^13 so the
bits-per-sample field does not wrap), decoding the container produced by
`encode` yields back exactly the samples, rate and channel count. -/
theorem c8_roundtrip (s : List Nat) (sr ch bd : Nat)
    (hsr : sr < 4294967296) (hch : ch < 65536) (hbd : bd < 8192) :
    decodeWav (encodeWav s sr ch bd) = Except.ok (s, sr, ch) := by
  have he : encodeWav s sr ch bd =
      82 :: 73 :: 70 :: 70 :: ((36 + s.length) % 256) ::
      ((36 + s.length) / 256 % 256) :: ((36 + s.length) / 256 / 256 % 256) ::
      ((36 + s.length) / 256 / 256 / 256 % 256) :: 87 :: 65 :: 86 :: 69 ::
      102 :: 109 :: 116 :: 32 :: 16 :: 0 :: 0 :: 0 :: 1 :: 0 ::
      (ch % 256) :: (ch / 256 % 256) :: (sr % 256) :: (sr / 256 % 256) ::
      (sr / 256 / 256 % 256) :: (sr / 256 / 256 / 256 % 256) ::
      ((sr * ch * bd) % 256) :: ((sr * ch * bd) / 256 % 256) ::
      ((sr * ch * bd) / 256 / 256 % 256) ::
      ((sr * ch * bd) / 256 / 256 / 256 % 256) ::
      ((ch * bd) % 256) :: ((ch * bd) / 256 % 256) ::
      ((bd * 8) % 256) :: ((bd * 8) / 256 % 256) ::
      100 :: 97 :: 116 :: 97 :: (s.length % 256) :: (s.length / 256 % 256) ::
      (s.length / 256 / 256 % 256) :: (s.length / 256 / 256 / 256 % 256) ::
      s := by
    simp [encodeWav, wavHeader, toLE4, toLE2]
  rw [he]
  rw [decodeWav]
  have hch' : fromLE2 (ch % 256) (ch / 256 % 256) = ch := by
    unfold fromLE2; omega
  have hsr' : fromLE4 (sr % 256) (sr / 256 % 256) (sr / 256 / 256 % 256)
      (sr / 256 / 256 / 256 % 256) = sr := by
    unfold fromLE4; omega
  have hbd' : fromLE2 ((bd * 8) % 256) ((bd * 8) / 256 % 256) / 8 = bd := by
    unfold fromLE2; omega
  rw [hch', hsr', hbd']
  rw [if_pos (by simp [wavHeader, toLE4, toLE2])]

/-- C8 witness at a concrete two-byte payload with the parameters used by
`create_wav_buffer`. -/
theorem c8_witness :
    16000 < 4294967296 ∧ 1 < 65536 ∧ 2 < 8192 ∧
    decodeWav (encodeWav [1, 2] 16000 1 2) = Except.ok ([1, 2], 16000, 1) :=
  ⟨by decide, by decide, by decide,
    c8_roundtrip [1, 2] 16000 1 2 (by decide) (by decide) (by decide)⟩

/-! ## Claim C9 — decode rejects everything that is not a container -/

/-- C9: on every byte sequence, `decode` is total and strict — it either
rejects the input with `FormatError`, or accepts it and returns data whose
canonical re-encoding is byte-for-byte the input (so a malformed,
unsupported or corrupt header is always rejected, and accepted input is
never silently mis-decoded). -/
theorem c9_decode_strict (b : List Nat) :
    decodeWav b = Except.error FormatError.malformed ∨
    ∃ s sr ch bd, decodeWav b = Except.ok (s, sr, ch) ∧
      b = encodeWav s sr ch bd := by
  unfold decodeWav
  split
  · rename_i b0 b1 b2 b3 b4 b5 b6 b7 b8 b9 b10 b11 b12 b13 b14 b15 b16 b17
      b18 b19 b20 b21 b22 b23 b24 b25 b26 b27 b28 b29 b30 b31 b32 b33 b34
      b35 b36 b37 b38 b39 b40 b41 b42 b43 rest
    split
    · rename_i h
      right
      refine ⟨rest, fromLE4 b24 b25 b26 b27, fromLE2 b22 b23,
        fromLE2 b34 b35 / 8, rfl, ?_⟩
      rw [encodeWav, ← h]
      simp
    · left; rfl
  · left; rfl

/-! ## Claim C10 — Playback Sink release path

`AudioClient.play_audio` (client.py lines 95-119) is

```
try:
    ... sf.read ...            # may raise before `stream` is bound
    stream = self.p.open(...)  # binds the local `stream` if it succeeds
    for ...: stream.write(...) # may raise after `stream` is bound
except Exception as e:
    print(...)                 # swallows any body exception
finally:
    stream.stop_stream()       # references the local `stream`
    stream.close()
```

The control flow is modelled by which step of the body (if any) raises
first; the `finally` clause's behaviour depends only on whether the local
variable `stream` was bound when it runs. -/

/-- The first step of `play_audio`'s body to raise, if any:
`decodeError` — `sf.read` fails (malformed reply audio);
`openError` — `self.p.open` fails;
`writeError` — some `stream.write` fails;
`success` — the body runs to completion. -/
inductive PlayFailure where
  | decodeError
  | openError
  | writeError
  | success
deriving DecidableEq

/-- What `play_audio` did: whether the output stream was opened, whether
it was stopped and closed by the `finally` clause, and whether the
`finally` clause itself raised a new error out of `play_audio`
(an `UnboundLocalError` from `stream.stop_stream()` when `stream` was
never bound). -/
structure PlayResult where
  stream_opened : Bool
  stream_stopped : Bool
  stream_closed : Bool
  release_raises : Bool
deriving DecidableEq

/-- Whether the local variable `stream` is bound when the `finally` clause
runs: it is bound exactly when `self.p.open(...)` was reached and
succeeded, i.e. when decoding and opening did not raise. -/
def stream_bound : PlayFailure → Bool
  | PlayFailure.decodeError => false
  | PlayFailure.openError => false
  | PlayFailure.writeError => true
  | PlayFailure.success => true

/-- `AudioClient.play_audio`: the `except` clause swallows any body
exception, then the `finally` clause runs.  If `stream` is bound it is
stopped and closed; if not, evaluating `stream.stop_stream()` raises an
`UnboundLocalError` that propagates out of `play_audio`. -/
def play_audio (f : PlayFailure) : PlayResult :=
  if stream_bound f then
    { stream_opened := true, stream_stopped := true, stream_closed := true,
      release_raises := false }
  else
    { stream_opened := false, stream_stopped := false, stream_closed := false,
      release_raises := true }

/-- C10 (code bug): the claim that `play` releases the stream on every
path "and does not raise a new error from its release path" fails on the
path where decoding the reply raises before the output stream is opened:
the `finally` clause then evaluates `stream.stop_stream()` with the local
`stream` unbound and raises `UnboundLocalError` out of `play_audio`.  On
the paths where the stream was opened (including a write failing mid-way)
it is stopped and closed without a new error. -/
theorem c10_release_path_raises :
    (play_audio PlayFailure.decodeError).release_raises = true ∧
    (play_audio PlayFailure.decodeError).stream_opened = false ∧
    (play_audio PlayFailure.writeError).stream_stopped = true ∧
    (play_audio PlayFailure.writeError).stream_closed = true ∧
    (play_audio PlayFailure.success).release_raises = false := by
  refine ⟨?_, ?_, ?_, ?_, ?_⟩ <;> decide
